import Mathlib

/-!
Verification of the vault staking dashboard (`src/ui/components/StakeContent.tsx`)
and the market-data API route (`src/ui/app/api/market-data/[tokenAddress]/route.ts`).

The embedding models the share-account refresh loop of `fetchVaultData`, the
`handleDeposit` / `handleRedeem` transaction pipelines, the redeem-button
disabled predicate, and the POST handler of the market-data route.  Raw token
amounts are kept in base units (the UI divides by 10^6 only for display), so
all arithmetic is over `Nat` exactly as the underlying BigInt / u64 values.
-/

namespace ZCombinator

/-- Result of one attempt of the user-share-account read step of
`fetchVaultData` (StakeContent.tsx lines 171-201).  `notFound` models
`getAccount` throwing (account not found); `found b pok` models a successful
read of a raw share amount `b`, where `pok` records whether the subsequent
`previewRedeem(...).view()` call succeeds (it is only issued when `b > 0`). -/
inductive ShareReadResult where
  | notFound
  | found (rawAmount : Nat) (previewOk : Bool)
deriving DecidableEq

/-- The two React state fields written by the share step:
`userShareBalance` and `userShareValue`, in raw base units. -/
structure ShareState where
  balance : Nat
  value : Nat
deriving DecidableEq

/-- Observable outcome of the retry cascade: the settled state fields, the
list of backoff delays (ms) scheduled before each retry, and the number of
read attempts that ended in the catch handler. -/
structure FetchTrace where
  final : ShareState
  delays : List Nat
  failedAttempts : Nat
deriving DecidableEq

/-- Modelled from the spec: the on-chain vault program's `previewRedeem`
instruction is not part of this repository (StakeContent.tsx only calls it via
`program.methods.previewRedeem(...).view()`).  The spec's glossary defines the
share token as "redeemable at a rate set by total assets ÷ total shares", so
`previewRedeem` maps `shares` to `shares × totalAssets / totalShares` under
integer floor division. -/
def previewRedeem (totalAssets totalShares shares : Nat) : Nat :=
  shares * totalAssets / totalShares

/-- The displayed exchange rate is obtained by redeeming one whole share of
10^6 base units (StakeContent.tsx lines 155-165, `oneShare = new BN(1_000_000)`). -/
def exchangeRateRaw (totalAssets totalShares : Nat) : Nat :=
  previewRedeem totalAssets totalShares 1000000

/-- Backoff before the retry scheduled at `retryCount`:
`Math.pow(2, retryCount) * 1000` ms (StakeContent.tsx line 193). -/
def retryDelayMs (retryCount : Nat) : Nat :=
  2 ^ retryCount * 1000

/-- Share-step retry cascade of `fetchVaultData`, recursing on
`remaining = maxRetries - retryCount` (the code retries exactly when
`retryCount < maxRetries`, StakeContent.tsx lines 190-201).
On a successful read the code sets `userShareBalance` and then
`userShareValue` (`previewRedeem` of the full raw amount when it is positive,
`0` otherwise).  When `previewRedeem` throws after the balance was set, control
reaches the same catch handler with the balance already overwritten, which is
why the recursive call receives `⟨b, st.value⟩`.  When retries are exhausted
the handler sets both fields to `0`. -/
def fetchShareGo (reads : Nat → ShareReadResult) (preview : Nat → Nat) :
    Nat → Nat → ShareState → FetchTrace
  | rc, 0, _st =>
    match reads rc with
    | .found b pok =>
      if b = 0 then ⟨⟨0, 0⟩, [], 0⟩
      else if pok then ⟨⟨b, preview b⟩, [], 0⟩
      else ⟨⟨0, 0⟩, [], 1⟩
    | .notFound => ⟨⟨0, 0⟩, [], 1⟩
  | rc, r + 1, st =>
    match reads rc with
    | .found b pok =>
      if b = 0 then ⟨⟨0, 0⟩, [], 0⟩
      else if pok then ⟨⟨b, preview b⟩, [], 0⟩
      else
        ⟨(fetchShareGo reads preview (rc + 1) r ⟨b, st.value⟩).final,
          retryDelayMs rc :: (fetchShareGo reads preview (rc + 1) r ⟨b, st.value⟩).delays,
          (fetchShareGo reads preview (rc + 1) r ⟨b, st.value⟩).failedAttempts + 1⟩
    | .notFound =>
      ⟨(fetchShareGo reads preview (rc + 1) r st).final,
        retryDelayMs rc :: (fetchShareGo reads preview (rc + 1) r st).delays,
        (fetchShareGo reads preview (rc + 1) r st).failedAttempts + 1⟩

/-- Entry point of the share step of `fetchVaultData retryCount maxRetries`
(the component invokes it as `fetchVaultData()`, i.e. with the defaults
`retryCount = 0, maxRetries = 3`). -/
def fetchShareLoop (reads : Nat → ShareReadResult) (preview : Nat → Nat)
    (retryCount maxRetries : Nat) (st : ShareState) : FetchTrace :=
  fetchShareGo reads preview retryCount (maxRetries - retryCount) st

/-- C1 counterexample: when every read attempt fails, the cascade started with
the defaults `retryCount = 0, maxRetries = 3` ends its run with 4 failed
attempts (retry counts 0, 1, 2 and 3), not the 3 failed attempts the claim
asserts. -/
theorem fetchVaultData_allFail_three_attempts_false :
    (fetchShareLoop (fun _ => ShareReadResult.notFound) (fun _ => 0) 0 3
        ⟨5, 7⟩).failedAttempts = 4 ∧
    ¬ (fetchShareLoop (fun _ => ShareReadResult.notFound) (fun _ => 0) 0 3
        ⟨5, 7⟩).failedAttempts = 3 := by
  decide

/-- C1 (amended): if every attempt of the share read fails, the refresh started
with the defaults retries with delays 1s, 2s, 4s before attempts 1, 2, 3, and
settles on the terminal state `userShareBalance = 0`, `userShareValue = 0`
after exactly 4 failed attempts in total (the initial attempt plus 3 retries). -/
theorem fetchVaultData_allFail_settles_zero
    (reads : Nat → ShareReadResult) (preview : Nat → Nat) (st : ShareState)
    (h : ∀ k, reads k = ShareReadResult.notFound) :
    fetchShareLoop reads preview 0 3 st = ⟨⟨0, 0⟩, [1000, 2000, 4000], 4⟩ := by
  simp [fetchShareLoop, fetchShareGo, h, retryDelayMs]

/-- Witness for `fetchVaultData_allFail_settles_zero` at a concrete
always-failing read oracle and a nonzero prior state. -/
theorem fetchVaultData_allFail_settles_zero_witness :
    fetchShareLoop (fun _ => ShareReadResult.notFound) (fun _ => 0) 0 3 ⟨5, 7⟩
      = ⟨⟨0, 0⟩, [1000, 2000, 4000], 4⟩ :=
  fetchVaultData_allFail_settles_zero (fun _ => ShareReadResult.notFound)
    (fun _ => 0) ⟨5, 7⟩ (fun _ => rfl)

/-- The settled state of the cascade never depends on the prior values of the
two fields: every terminating branch writes both fields. -/
theorem fetchShareGo_final_ext (reads : Nat → ShareReadResult) (preview : Nat → Nat) :
    ∀ (r rc : Nat) (st st' : ShareState),
      (fetchShareGo reads preview rc r st).final
        = (fetchShareGo reads preview rc r st').final := by
  intro r
  induction r with
  | zero =>
    intro rc st st'
    simp only [fetchShareGo]
  | succ r ih =>
    intro rc st st'
    simp only [fetchShareGo]
    cases reads rc with
    | notFound => exact ih (rc + 1) st st'
    | found b pok =>
      by_cases hb : b = 0
      · simp [hb]
      · by_cases hp : pok
        · simp [hb, hp]
        · simp only [hb, hp]
          simp only [if_neg hb, Bool.false_eq_true, if_false]
          exact ih (rc + 1) ⟨b, st.value⟩ ⟨b, st'.value⟩

/-- In the settled state the derived value is always the one computed from the
settled balance: `preview balance` when the balance is positive, `0` otherwise. -/
theorem fetchShareGo_value_consistent (reads : Nat → ShareReadResult) (preview : Nat → Nat) :
    ∀ (r rc : Nat) (st : ShareState),
      (fetchShareGo reads preview rc r st).final.value
        = (if 0 < (fetchShareGo reads preview rc r st).final.balance
           then preview (fetchShareGo reads preview rc r st).final.balance else 0) := by
  intro r
  induction r with
  | zero =>
    intro rc st
    simp only [fetchShareGo]
    cases reads rc with
    | notFound => simp
    | found b pok =>
      by_cases hb : b = 0
      · simp [hb]
      · by_cases hp : pok
        · simp [hb, hp, Nat.pos_of_ne_zero hb]
        · simp [hb, hp]
  | succ r ih =>
    intro rc st
    simp only [fetchShareGo]
    cases reads rc with
    | notFound => exact ih (rc + 1) st
    | found b pok =>
      by_cases hb : b = 0
      · simp [hb]
      · by_cases hp : pok
        · simp [hb, hp, Nat.pos_of_ne_zero hb]
        · simp only [hb, hp]
          simp only [if_neg hb, Bool.false_eq_true, if_false]
          exact ih (rc + 1) ⟨b, st.value⟩

/-- C6: whenever the share-account read step of `fetchVaultData` succeeds at
some attempt, the settled `userShareBalance` and `userShareValue` are a
consistent pair replacing the prior state together: the settled pair is
independent of the prior field values, and the settled value is exactly the
one derived from the settled balance, so no outcome keeps one field's prior
value alongside the other's new value. -/
theorem fetch_success_updates_both_fields
    (reads : Nat → ShareReadResult) (preview : Nat → Nat) (rc mr : Nat)
    (st st' : ShareState) (k b : Nat) (pok : Bool)
    (_hk : reads k = ShareReadResult.found b pok) :
    (fetchShareLoop reads preview rc mr st).final
      = (fetchShareLoop reads preview rc mr st').final ∧
    (fetchShareLoop reads preview rc mr st).final.value
      = (if 0 < (fetchShareLoop reads preview rc mr st).final.balance
         then preview (fetchShareLoop reads preview rc mr st).final.balance else 0) := by
  refine ⟨?_, ?_⟩
  · exact fetchShareGo_final_ext reads preview (mr - rc) rc st st'
  · exact fetchShareGo_value_consistent reads preview (mr - rc) rc st

/-- Witness for `fetch_success_updates_both_fields`: a concrete run whose first
attempt reads a balance of 2 raw units. -/
theorem fetch_success_updates_both_fields_witness :
    (fetchShareLoop (fun _ => ShareReadResult.found 2 true) (fun b => 3 * b) 0 3
        ⟨5, 7⟩).final
      = (fetchShareLoop (fun _ => ShareReadResult.found 2 true) (fun b => 3 * b) 0 3
        ⟨9, 11⟩).final ∧
    (fetchShareLoop (fun _ => ShareReadResult.found 2 true) (fun b => 3 * b) 0 3
        ⟨5, 7⟩).final.value
      = (if 0 < (fetchShareLoop (fun _ => ShareReadResult.found 2 true) (fun b => 3 * b) 0 3
          ⟨5, 7⟩).final.balance
         then 3 * (fetchShareLoop (fun _ => ShareReadResult.found 2 true) (fun b => 3 * b) 0 3
          ⟨5, 7⟩).final.balance else 0) :=
  fetch_success_updates_both_fields (fun _ => ShareReadResult.found 2 true)
    (fun b => 3 * b) 0 3 ⟨5, 7⟩ ⟨9, 11⟩ 0 2 true rfl

/-- The rate for one whole share underestimates the true ratio by less than one
raw unit per share, so multiplying it back differs from `previewRedeem` of the
full balance by less than one raw unit on one side and less than `B` raw units
(one display unit per 10^6 shares) on the other. -/
theorem previewRedeem_rate_bounds (A S B : Nat) (hS : 0 < S) (hB : 0 < B) :
    B * previewRedeem A S 1000000 < 1000000 * previewRedeem A S B + 1000000 ∧
    1000000 * previewRedeem A S B < B * previewRedeem A S 1000000 + B := by
  unfold previewRedeem
  have hR : 1000000 * A / S * S ≤ 1000000 * A := Nat.div_mul_le_self _ _
  have hV : B * A / S * S ≤ B * A := Nat.div_mul_le_self _ _
  have hVlt : B * A < (B * A / S + 1) * S :=
    (Nat.div_lt_iff_lt_mul hS).mp (Nat.lt_succ_self _)
  have hRlt : 1000000 * A < (1000000 * A / S + 1) * S :=
    (Nat.div_lt_iff_lt_mul hS).mp (Nat.lt_succ_self _)
  constructor
  · have key : B * (1000000 * A / S) * S < (1000000 * (B * A / S) + 1000000) * S := by
      calc B * (1000000 * A / S) * S = B * (1000000 * A / S * S) := by ring
        _ ≤ B * (1000000 * A) := Nat.mul_le_mul le_rfl hR
        _ = 1000000 * (B * A) := by ring
        _ < 1000000 * ((B * A / S + 1) * S) :=
            mul_lt_mul_of_pos_left hVlt (by norm_num)
        _ = (1000000 * (B * A / S) + 1000000) * S := by ring
    exact Nat.lt_of_mul_lt_mul_right key
  · have key : 1000000 * (B * A / S) * S < (B * (1000000 * A / S) + B) * S := by
      calc 1000000 * (B * A / S) * S = 1000000 * (B * A / S * S) := by ring
        _ ≤ 1000000 * (B * A) := Nat.mul_le_mul le_rfl hV
        _ = B * (1000000 * A) := by ring
        _ < B * ((1000000 * A / S + 1) * S) := mul_lt_mul_of_pos_left hRlt hB
        _ = (B * (1000000 * A / S) + B) * S := by ring
    exact Nat.lt_of_mul_lt_mul_right key

/-- C2: for a wallet whose share account holds a positive raw balance `B`, a
successful run of the share step settles on `userShareBalance = B` and
`userShareValue = previewRedeem B`, and that value equals `B` multiplied by
the displayed rate `exchangeRateRaw` (itself `previewRedeem` of one share of
10^6 base units) up to the rounding of the two integer divisions at 6 decimal
places: in raw units, `B * rate` and `10^6 * value` differ by less than
`10^6` on one side and less than `B` on the other. -/
theorem userShareValue_eq_balance_mul_rate (A S B : Nat) (hS : 0 < S) (hB : 0 < B)
    (st : ShareState) :
    (fetchShareLoop (fun _ => ShareReadResult.found B true) (previewRedeem A S) 0 3
        st).final = ⟨B, previewRedeem A S B⟩ ∧
    B * exchangeRateRaw A S < 1000000 * previewRedeem A S B + 1000000 ∧
    1000000 * previewRedeem A S B < B * exchangeRateRaw A S + B := by
  refine ⟨?_, previewRedeem_rate_bounds A S B hS hB⟩
  simp [fetchShareLoop, fetchShareGo, Nat.pos_iff_ne_zero.mp hB]

/-- Witness for `userShareValue_eq_balance_mul_rate` with total assets
6×10^6, total shares 2×10^6 and a balance of 5×10^6 raw units. -/
theorem userShareValue_eq_balance_mul_rate_witness :
    (fetchShareLoop (fun _ => ShareReadResult.found 5000000 true)
        (previewRedeem 6000000 2000000) 0 3 ⟨0, 0⟩).final
      = ⟨5000000, previewRedeem 6000000 2000000 5000000⟩ ∧
    5000000 * exchangeRateRaw 6000000 2000000
      < 1000000 * previewRedeem 6000000 2000000 5000000 + 1000000 ∧
    1000000 * previewRedeem 6000000 2000000 5000000
      < 5000000 * exchangeRateRaw 6000000 2000000 + 5000000 :=
  userShareValue_eq_balance_mul_rate 6000000 2000000 5000000 (by decide) (by decide) ⟨0, 0⟩

/-- Basis points computed by `handleRedeem`:
`Math.floor(redeemPercentNum * 100)` (StakeContent.tsx line 337), with the
percentage modelled as a rational. -/
def redeemBps (p : ℚ) : ℤ :=
  ⌊p * 100⌋

/-- The share amount submitted by `handleRedeem`:
`(totalShares * BigInt(Math.floor(redeemPercentNum * 100))) / BigInt(10000)`
(StakeContent.tsx line 337).  Both operands are non-negative (`totalShares` is
a u64 token amount and validation guarantees a positive percentage), so BigInt
truncating division coincides with `Nat` floor division. -/
def sharesToRedeem (totalShares bps : Nat) : Nat :=
  totalShares * bps / 10000

/-- C3: the basis-point formula of `handleRedeem` at `percent = 100` redeems
the full share balance exactly: `floor(100 × 100) = 10000` and
`totalShares × 10000 / 10000 = totalShares`. -/
theorem redeem_full_percent_redeems_all (totalShares : Nat) :
    sharesToRedeem totalShares (redeemBps 100).toNat = totalShares := by
  have hbps : (redeemBps 100).toNat = 10000 := by
    unfold redeemBps
    norm_num
    rfl
  rw [hbps]
  unfold sharesToRedeem
  exact Nat.mul_div_cancel totalShares (by norm_num)

/-- C9: for any percentage in (0, 100] the submitted share amount never
exceeds the user's share balance, because `floor(p × 100) ≤ 10000`. -/
theorem sharesToRedeem_le_totalShares (p : ℚ) (totalShares : Nat)
    (hp : 0 < p) (hple : p ≤ 100) :
    sharesToRedeem totalShares (redeemBps p).toNat ≤ totalShares := by
  have hfloor : redeemBps p ≤ 10000 := by
    unfold redeemBps
    calc ⌊p * 100⌋ ≤ ⌊(10000 : ℚ)⌋ := Int.floor_le_floor (by linarith)
      _ = 10000 := by norm_num
  have hbps : (redeemBps p).toNat ≤ 10000 := by omega
  unfold sharesToRedeem
  calc totalShares * (redeemBps p).toNat / 10000
      ≤ totalShares * 10000 / 10000 :=
        Nat.div_le_div_right (Nat.mul_le_mul le_rfl hbps)
    _ = totalShares := Nat.mul_div_cancel totalShares (by norm_num)

/-- Witness for `sharesToRedeem_le_totalShares` at `p = 25` and a balance of
12 raw units: `12 × 2500 / 10000 = 3 ≤ 12`. -/
theorem sharesToRedeem_le_totalShares_witness :
    (0 : ℚ) < 25 ∧ (25 : ℚ) ≤ 100 ∧
    sharesToRedeem 12 (redeemBps 25).toNat ≤ 12 :=
  ⟨by norm_num, by norm_num,
    sharesToRedeem_le_totalShares 25 12 (by norm_num) (by norm_num)⟩

/-- Validation at the top of `handleRedeem` (StakeContent.tsx lines 314-318):
`parseFloat` is modelled as `Option ℚ` with `none` for `NaN`; the handler
proceeds unless `!redeemPercentNum || redeemPercentNum <= 0 ||
redeemPercentNum > 100` (note `!NaN` and `!0` are both truthy in JS). -/
def redeemPercentAccepted (parsed : Option ℚ) : Bool :=
  match parsed with
  | none => false
  | some p => !(decide (p = 0) || decide (p ≤ 0) || decide (100 < p))

/-- The guard of `handleRedeem` accepts exactly the percentages in (0, 100]. -/
theorem redeemPercentAccepted_iff (parsed : Option ℚ) :
    redeemPercentAccepted parsed = true
      ↔ ∃ p, parsed = some p ∧ 0 < p ∧ p ≤ 100 := by
  cases parsed with
  | none => simp [redeemPercentAccepted]
  | some p =>
    simp only [redeemPercentAccepted, Bool.not_eq_true', Bool.or_eq_false_iff,
      decide_eq_false_iff_not, Option.some.injEq, Bool.not_eq_false]
    constructor
    · rintro ⟨⟨_h0, hle⟩, h100⟩
      exact ⟨p, rfl, lt_of_not_le hle, le_of_not_lt h100⟩
    · rintro ⟨q, hq, hq0, hq100⟩
      cases hq
      exact ⟨⟨ne_of_gt hq0, not_le.mpr hq0⟩, not_lt.mpr hq100⟩

/-- Result of the vault-state account read in `fetchVaultData`
(StakeContent.tsx lines 128-139): the account decodes with an
`operationsEnabled` flag, is missing (`getAccountInfo` returns null / no
data), or the read throws. -/
inductive VaultStateRead where
  | ok (operationsEnabled : Bool)
  | missing
  | failed
deriving DecidableEq

/-- `withdrawalsEnabled` as set by `fetchVaultData`: the decoded flag on a
successful read, `false` when the account is missing or the read fails. -/
def withdrawalsEnabledOf : VaultStateRead → Bool
  | .ok b => b
  | .missing => false
  | .failed => false

/-- The redeem-mode `disabled` predicate of the action button
(StakeContent.tsx lines 732-735):
`loading || (!redeemPercent || parseFloat(redeemPercent) <= 0 ||
!withdrawalsEnabled || userShareBalance === 0)`.  The text input is modelled
by its emptiness (`!redeemPercent`) and its parse (`none` for `NaN`, for which
`NaN <= 0` is false). -/
def redeemButtonDisabled (loading inputEmpty : Bool) (parsed : Option ℚ)
    (withdrawalsEnabled : Bool) (userShareBalance : ℚ) : Bool :=
  loading || (inputEmpty
    || (match parsed with
        | some p => decide (p ≤ 0)
        | none => false)
    || !withdrawalsEnabled
    || decide (userShareBalance = 0))

/-- C4: whenever the vault-state read yields `operationsEnabled = false` — in
particular when the account is missing or the read fails — the redeem button's
disabled predicate is true for every loading state, every percentage input and
every share balance, so `handleRedeem` cannot be invoked from it. -/
theorem redeem_disabled_when_operations_disabled
    (r : VaultStateRead) (loading inputEmpty : Bool) (parsed : Option ℚ)
    (bal : ℚ) (h : withdrawalsEnabledOf r = false) :
    redeemButtonDisabled loading inputEmpty parsed (withdrawalsEnabledOf r) bal
      = true := by
  rw [h]
  simp [redeemButtonDisabled]

/-- Witness for `redeem_disabled_when_operations_disabled`: a failed
vault-state read with a large positive balance and a valid input. -/
theorem redeem_disabled_when_operations_disabled_witness :
    redeemButtonDisabled false false (some 50) (withdrawalsEnabledOf .failed) 7
      = true :=
  redeem_disabled_when_operations_disabled .failed false false (some 50) 7 rfl

/-- Toast emitted by a handler (`showToast` in the source). -/
inductive ToastResult where
  | success
  | error (msg : String)
deriving DecidableEq

/-- Observable outcome of one invocation of `handleDeposit` or `handleRedeem`:
how many times `signAndSendTransaction` was invoked, whether `console.error`
was called, the toast shown, and the delay (ms) of the refresh scheduled after
a confirmed transaction (`none` when no refresh was scheduled). -/
structure HandlerRun where
  sends : Nat
  errorLogged : Bool
  toast : ToastResult
  refreshDelayMs : Option Nat
deriving DecidableEq

/-- Fallible steps of `handleDeposit` (StakeContent.tsx lines 216-311), as an
oracle: each `Except` is the result the corresponding await would produce.
`shareAccountExists` is the inline-caught `getAccount(senderShareAccount)`
probe; its failure only adds a create-ATA instruction and never aborts. -/
structure DepositOracle where
  shareAccountExists : Bool
  buildIx : Except String Unit
  blockhash : Except String Unit
  send : Except String Unit
  confirm : Except String Unit

/-- The first error raised inside the try block of `handleDeposit`, in program
order, if any. -/
def firstDepositFailure (o : DepositOracle) : Option String :=
  match o.buildIx with
  | .error e => some e
  | .ok _ =>
    match o.blockhash with
    | .error e => some e
    | .ok _ =>
      match o.send with
      | .error e => some e
      | .ok _ =>
        match o.confirm with
        | .error e => some e
        | .ok _ => none

/-- `handleDeposit`: amount validation (`!depositAmount || depositAmount <= 0`
with `parseFloat` modelled as `Option ℚ`), wallet and program checks, then the
build / blockhash / sign-and-send / confirm pipeline inside one try block whose
catch logs the error and shows an error toast.  On success an 8000 ms refresh
is scheduled (StakeContent.tsx lines 300-304). -/
def runDeposit (amount : Option ℚ) (walletOk programOk : Bool)
    (o : DepositOracle) : HandlerRun :=
  match amount with
  | none => ⟨0, false, .error "Please enter a valid deposit amount", none⟩
  | some a =>
    if a ≤ 0 then ⟨0, false, .error "Please enter a valid deposit amount", none⟩
    else if !walletOk then ⟨0, false, .error "Please connect your wallet first", none⟩
    else if !programOk then ⟨0, true, .error "Program not available", none⟩
    else
      match o.buildIx with
      | .error e => ⟨0, true, .error e, none⟩
      | .ok _ =>
        match o.blockhash with
        | .error e => ⟨0, true, .error e, none⟩
        | .ok _ =>
          match o.send with
          | .error e => ⟨1, true, .error e, none⟩
          | .ok _ =>
            match o.confirm with
            | .error e => ⟨1, true, .error e, none⟩
            | .ok _ => ⟨1, false, .success, some 8000⟩

/-- Fallible steps of `handleRedeem` (StakeContent.tsx lines 313-412).
`shareAccount` is `getAccount(connection, userShareAccount)`, which is inside
the try block and aborts on failure; `tokenAccountExists` is the inline-caught
probe of the sender's token account, which never aborts. -/
structure RedeemOracle where
  shareAccount : Except String Nat
  tokenAccountExists : Bool
  buildIx : Except String Unit
  blockhash : Except String Unit
  send : Except String Unit
  confirm : Except String Unit

/-- The first error raised inside the try block of `handleRedeem`, in program
order, if any. -/
def firstRedeemFailure (o : RedeemOracle) : Option String :=
  match o.shareAccount with
  | .error e => some e
  | .ok _ =>
    match o.buildIx with
    | .error e => some e
    | .ok _ =>
      match o.blockhash with
      | .error e => some e
      | .ok _ =>
        match o.send with
        | .error e => some e
        | .ok _ =>
          match o.confirm with
          | .error e => some e
          | .ok _ => none

/-- `handleRedeem`: percentage validation, wallet and program checks, then the
read-shares / build / blockhash / sign-and-send / confirm pipeline inside one
try block whose catch logs the error and shows an error toast.  On success an
8000 ms refresh is scheduled (StakeContent.tsx lines 401-405). -/
def runRedeem (parsed : Option ℚ) (walletOk programOk : Bool)
    (o : RedeemOracle) : HandlerRun :=
  if !redeemPercentAccepted parsed then
    ⟨0, false, .error "Please enter a valid percentage between 0 and 100", none⟩
  else if !walletOk then ⟨0, false, .error "Please connect your wallet first", none⟩
  else if !programOk then ⟨0, true, .error "Program not available", none⟩
  else
    match o.shareAccount with
    | .error e => ⟨0, true, .error e, none⟩
    | .ok _totalShares =>
      match o.buildIx with
      | .error e => ⟨0, true, .error e, none⟩
      | .ok _ =>
        match o.blockhash with
        | .error e => ⟨0, true, .error e, none⟩
        | .ok _ =>
          match o.send with
          | .error e => ⟨1, true, .error e, none⟩
          | .ok _ =>
            match o.confirm with
            | .error e => ⟨1, true, .error e, none⟩
            | .ok _ => ⟨1, false, .success, some 8000⟩

/-- C5: `handleRedeem` proceeds past its percentage guard exactly for inputs in
(0, 100] — `NaN` (parse failure), values ≤ 0 and values > 100 are all
rejected — and on a rejected input the handler shows the error toast and
returns with no submission attempt and no scheduled refresh. -/
theorem redeem_percent_validation (parsed : Option ℚ) (walletOk programOk : Bool)
    (o : RedeemOracle) :
    (redeemPercentAccepted parsed = true ↔ ∃ p, parsed = some p ∧ 0 < p ∧ p ≤ 100) ∧
    (redeemPercentAccepted parsed = false →
      runRedeem parsed walletOk programOk o
        = ⟨0, false, ToastResult.error "Please enter a valid percentage between 0 and 100",
            none⟩) := by
  refine ⟨redeemPercentAccepted_iff parsed, fun h => ?_⟩
  simp [runRedeem, h]

/-- Witness for `redeem_percent_validation` at the out-of-range input 150. -/
theorem redeem_percent_validation_witness :
    runRedeem (some 150) true true
        ⟨Except.ok 9, true, Except.ok (), Except.ok (), Except.ok (), Except.ok ()⟩
      = ⟨0, false, ToastResult.error "Please enter a valid percentage between 0 and 100",
          none⟩ :=
  (redeem_percent_validation (some 150) true true
      ⟨Except.ok 9, true, Except.ok (), Except.ok (), Except.ok (), Except.ok ()⟩).2
    (by decide)

/-- C7: any error thrown while building, signing, sending or confirming the
transaction in `handleDeposit` or `handleRedeem` is terminal: the handler logs
it, shows it as an error toast, schedules no refresh, and issues at most one
submission attempt — it never resubmits. -/
theorem submission_failure_no_retry
    (a p : ℚ) (o : DepositOracle) (o' : RedeemOracle) (m m' : String)
    (ha : 0 < a) (hp : 0 < p) (hp100 : p ≤ 100)
    (hd : firstDepositFailure o = some m)
    (hr : firstRedeemFailure o' = some m') :
    ((runDeposit (some a) true true o).toast = ToastResult.error m ∧
      (runDeposit (some a) true true o).errorLogged = true ∧
      (runDeposit (some a) true true o).sends ≤ 1 ∧
      (runDeposit (some a) true true o).refreshDelayMs = none) ∧
    ((runRedeem (some p) true true o').toast = ToastResult.error m' ∧
      (runRedeem (some p) true true o').errorLogged = true ∧
      (runRedeem (some p) true true o').sends ≤ 1 ∧
      (runRedeem (some p) true true o').refreshDelayMs = none) := by
  have haccept : redeemPercentAccepted (some p) = true :=
    (redeemPercentAccepted_iff (some p)).mpr ⟨p, rfl, hp, hp100⟩
  constructor
  · obtain ⟨sae, bi, bh, sd, cf⟩ := o
    cases bi <;> cases bh <;> cases sd <;> cases cf <;>
      simp_all [runDeposit, firstDepositFailure, not_le.mpr ha]
  · obtain ⟨sa, tae, bi, bh, sd, cf⟩ := o'
    cases sa <;> cases bi <;> cases bh <;> cases sd <;> cases cf <;>
      simp_all [runRedeem, firstRedeemFailure]

/-- Witness for `submission_failure_no_retry`: a deposit whose confirmation
fails and a redemption whose send fails. -/
theorem submission_failure_no_retry_witness :
    ((runDeposit (some 2) true true
        ⟨true, Except.ok (), Except.ok (), Except.ok (),
          Except.error "confirm timed out"⟩).toast
        = ToastResult.error "confirm timed out" ∧
      (runDeposit (some 2) true true
        ⟨true, Except.ok (), Except.ok (), Except.ok (),
          Except.error "confirm timed out"⟩).errorLogged = true ∧
      (runDeposit (some 2) true true
        ⟨true, Except.ok (), Except.ok (), Except.ok (),
          Except.error "confirm timed out"⟩).sends ≤ 1 ∧
      (runDeposit (some 2) true true
        ⟨true, Except.ok (), Except.ok (), Except.ok (),
          Except.error "confirm timed out"⟩).refreshDelayMs = none) ∧
    ((runRedeem (some 40) true true
        ⟨Except.ok 9, true, Except.ok (), Except.ok (),
          Except.error "user rejected", Except.ok ()⟩).toast
        = ToastResult.error "user rejected" ∧
      (runRedeem (some 40) true true
        ⟨Except.ok 9, true, Except.ok (), Except.ok (),
          Except.error "user rejected", Except.ok ()⟩).errorLogged = true ∧
      (runRedeem (some 40) true true
        ⟨Except.ok 9, true, Except.ok (), Except.ok (),
          Except.error "user rejected", Except.ok ()⟩).sends ≤ 1 ∧
      (runRedeem (some 40) true true
        ⟨Except.ok 9, true, Except.ok (), Except.ok (),
          Except.error "user rejected", Except.ok ()⟩).refreshDelayMs = none) :=
  submission_failure_no_retry 2 40
    ⟨true, Except.ok (), Except.ok (), Except.ok (), Except.error "confirm timed out"⟩
    ⟨Except.ok 9, true, Except.ok (), Except.ok (), Except.error "user rejected",
      Except.ok ()⟩
    "confirm timed out" "user rejected"
    (by norm_num) (by norm_num) (by norm_num) rfl rfl

/-- Immediate actions run by the `useEffect` keyed on the wallet value
(StakeContent.tsx lines 209-214): when a wallet is present it calls
`fetchZcBalance()` and `fetchVaultData()` — the latter with its default
arguments `retryCount = 0, maxRetries = 3`. -/
inductive RefreshAction where
  | fetchZcBalance
  | fetchVaultData (retryCount maxRetries : Nat)
deriving DecidableEq

/-- Effect body of the wallet-keyed `useEffect`. -/
def walletEffect (walletConnected : Bool) : List RefreshAction :=
  if walletConnected then [.fetchZcBalance, .fetchVaultData 0 3] else []

/-- C8: on wallet connect the effect immediately invokes `fetchVaultData` with
`retryCount = 0` (attempt 0, no delay), and after a confirmed transaction both
`handleDeposit` and `handleRedeem` schedule the refresh with a delay of
exactly 8000 ms. -/
theorem refresh_triggers (a p : ℚ) (o : DepositOracle) (o' : RedeemOracle)
    (ha : 0 < a) (hp : 0 < p) (hp100 : p ≤ 100)
    (hd : firstDepositFailure o = none) (hr : firstRedeemFailure o' = none) :
    walletEffect true = [RefreshAction.fetchZcBalance, RefreshAction.fetchVaultData 0 3] ∧
    (runDeposit (some a) true true o).refreshDelayMs = some 8000 ∧
    (runRedeem (some p) true true o').refreshDelayMs = some 8000 := by
  have haccept : redeemPercentAccepted (some p) = true :=
    (redeemPercentAccepted_iff (some p)).mpr ⟨p, rfl, hp, hp100⟩
  refine ⟨rfl, ?_, ?_⟩
  · obtain ⟨sae, bi, bh, sd, cf⟩ := o
    cases bi <;> cases bh <;> cases sd <;> cases cf <;>
      simp_all [runDeposit, firstDepositFailure, not_le.mpr ha]
  · obtain ⟨sa, tae, bi, bh, sd, cf⟩ := o'
    cases sa <;> cases bi <;> cases bh <;> cases sd <;> cases cf <;>
      simp_all [runRedeem, firstRedeemFailure]

/-- Witness for `refresh_triggers` on fully successful deposit and redeem
pipelines. -/
theorem refresh_triggers_witness :
    walletEffect true = [RefreshAction.fetchZcBalance, RefreshAction.fetchVaultData 0 3] ∧
    (runDeposit (some 2) true true
        ⟨true, Except.ok (), Except.ok (), Except.ok (), Except.ok ()⟩).refreshDelayMs
      = some 8000 ∧
    (runRedeem (some 40) true true
        ⟨Except.ok 9, true, Except.ok (), Except.ok (), Except.ok (),
          Except.ok ()⟩).refreshDelayMs = some 8000 :=
  refresh_triggers 2 40
    ⟨true, Except.ok (), Except.ok (), Except.ok (), Except.ok ()⟩
    ⟨Except.ok 9, true, Except.ok (), Except.ok (), Except.ok (), Except.ok ()⟩
    (by norm_num) (by norm_num) (by norm_num) rfl rfl

/-! Embedding of `src/ui/app/api/market-data/[tokenAddress]/route.ts`. -/

/-- JavaScript `a || b` for an optional number: a present nonzero value wins,
otherwise the fallback number. -/
def jsOr (a : Option ℚ) (b : ℚ) : ℚ :=
  match a with
  | some x => if x = 0 then b else x
  | none => b

/-- JavaScript `a || b` for two optional numbers (used where the code has no
final numeric fallback). -/
def jsOrElse (a b : Option ℚ) : Option ℚ :=
  match a with
  | some x => if x = 0 then b else some x
  | none => b

/-- Fields the route reads off the upstream Birdeye JSON (each may be absent). -/
structure BirdeyeData where
  price : Option ℚ
  liquidity : Option ℚ
  totalSupply : Option ℚ
  circulatingSupply : Option ℚ
  fdv : Option ℚ
  marketCap : Option ℚ
  market_cap : Option ℚ
  priceChange24h : Option ℚ
  price_change_24h : Option ℚ
deriving DecidableEq

/-- The normalized market-data object the route returns on success. -/
structure MarketData where
  price : ℚ
  liquidity : ℚ
  total_supply : ℚ
  circulating_supply : ℚ
  fdv : ℚ
  market_cap : ℚ
  price_change_24h : Option ℚ
deriving DecidableEq

/-- Normalization of the upstream response (route.ts lines 48-59). -/
def normalizeBirdeye (d : BirdeyeData) : MarketData :=
  ⟨jsOr d.price 0, jsOr d.liquidity 0, jsOr d.totalSupply 0,
    jsOr d.circulatingSupply 0, jsOr d.fdv 0,
    jsOr (jsOrElse d.marketCap d.market_cap) 0,
    jsOrElse d.priceChange24h d.price_change_24h⟩

/-- The upstream `fetch` response: its `ok` flag, HTTP status, and JSON body. -/
structure UpstreamResponse where
  ok : Bool
  status : Nat
  body : BirdeyeData
deriving DecidableEq

/-- Either the `fetch` call itself throws (network failure, caught by the
outer catch) or a response arrives. -/
inductive FetchResult where
  | threw
  | responded (r : UpstreamResponse)
deriving DecidableEq

/-- Body returned by the mock Birdeye module (`@/lib/mock`, passed through
verbatim by the route). -/
structure RouteBody where
  success : Bool
  data : Option MarketData
  error : Option String
deriving DecidableEq

/-- An HTTP JSON response produced by the route handler. -/
structure RouteResponse where
  status : Nat
  success : Bool
  data : Option MarketData
  error : Option String
deriving DecidableEq

/-- JavaScript falsiness of the `tokenAddress` field: absent (`undefined`) or
the empty string. -/
def strFalsy : Option String → Bool
  | none => true
  | some s => s.isEmpty

/-- The POST handler of the market-data route.  `body` is `none` when
`request.json()` throws (handled by the outer catch with status 500),
otherwise it carries the optional `tokenAddress` field.  `useMock` is
`shouldUseMockBirdeye()` and `mock` the body the mock module returns with
status 200.  In real mode the upstream result decides: a thrown fetch hits the
outer catch (500), a not-ok response is mapped to its own status with a null
data object, and an ok response is normalized under status 200. -/
def marketDataPOST (body : Option (Option String)) (useMock : Bool)
    (mock : RouteBody) (upstream : FetchResult) : RouteResponse :=
  match body with
  | none => ⟨500, false, none, some "Failed to fetch market data"⟩
  | some tokenAddress =>
    if strFalsy tokenAddress then
      ⟨400, false, none, some "Token address is required"⟩
    else if useMock then
      ⟨200, mock.success, mock.data, mock.error⟩
    else
      match upstream with
      | .threw => ⟨500, false, none, some "Failed to fetch market data"⟩
      | .responded r =>
        if !r.ok then ⟨r.status, false, none, some "Failed to fetch market data"⟩
        else ⟨200, true, some (normalizeBirdeye r.body), none⟩

/-- C10: a POST whose JSON body lacks a `tokenAddress` field is answered with
status 400 and body `{ success: false, data: null, error: 'Token address is
required' }` (in every mode), and a non-ok upstream Birdeye response is
answered with the upstream status code and body `{ success: false, data: null,
error: 'Failed to fetch market data' }` — never a partial data object. -/
theorem marketData_error_responses :
    (∀ (useMock : Bool) (mock : RouteBody) (upstream : FetchResult),
      marketDataPOST (some none) useMock mock upstream
        = ⟨400, false, none, some "Token address is required"⟩) ∧
    (∀ (ta : String) (mock : RouteBody) (r : UpstreamResponse),
      ta.isEmpty = false → r.ok = false →
      marketDataPOST (some (some ta)) false mock (FetchResult.responded r)
        = ⟨r.status, false, none, some "Failed to fetch market data"⟩) := by
  constructor
  · intro useMock mock upstream
    simp [marketDataPOST, strFalsy]
  · intro ta mock r hta hok
    simp [marketDataPOST, strFalsy, hta, hok]

/-- Witness for `marketData_error_responses`: a body without the field, and a
502 upstream response for a present token address. -/
theorem marketData_error_responses_witness :
    marketDataPOST (some none) false ⟨true, none, none⟩ FetchResult.threw
      = ⟨400, false, none, some "Token address is required"⟩ ∧
    marketDataPOST (some (some "So11111111111111111111111111111111111111112"))
        false ⟨true, none, none⟩
        (FetchResult.responded
          ⟨false, 502, ⟨none, none, none, none, none, none, none, none, none⟩⟩)
      = ⟨502, false, none, some "Failed to fetch market data"⟩ :=
  ⟨marketData_error_responses.1 false ⟨true, none, none⟩ FetchResult.threw,
    marketData_error_responses.2 "So11111111111111111111111111111111111111112"
      ⟨true, none, none⟩
      ⟨false, 502, ⟨none, none, none, none, none, none, none, none, none⟩⟩
      rfl rfl⟩

end ZCombinator
